import Mathlib

/-!
Verification of the Document Ingestion & Query Orchestration Layer of the
RLM PDF chatbot (src/ui/utils.py and src/ui/app.py).

Strings are embedded as lists of Unicode code points (`List Char`), matching
the Python model of a string as a sequence of code points.  The external
`unicodedata.normalize("NFKC", -)` library call is modelled as an explicit
function parameter `nfkc`; the one property of it that the development relies
on (NFKC is the identity on ASCII text) is taken as a hypothesis where needed.
-/

/-- Python strings as sequences of code points. -/
abbrev Str := List Char

/-- Turn a Lean string literal into the code-point representation. -/
def str (s : String) : Str := s.data

/-- All code points strictly below 128 (the ASCII guarantee). -/
def isAscii : Str → Bool
  | [] => true
  | c :: rest => decide (c.toNat < 128) && isAscii rest

/-- One entry of the substitution loop `text = text.replace(char, replacement)`
from `normalize_text` (utils.py lines 49-50); every key of the table is a
single character, so the replacement is a per-character expansion. -/
def replaceChar (key : Char) (val : Str) : Str → Str
  | [] => []
  | c :: rest => (if c = key then val else [c]) ++ replaceChar key val rest

/-- The fixed substitution table of `normalize_text` (utils.py lines 21-48),
in source order; keys are given by code point exactly as in the source. -/
def replacements : List (Char × Str) :=
  [ (Char.ofNat 0x2212, str "-"),
    (Char.ofNat 0x2013, str "-"),
    (Char.ofNat 0x2014, str "-"),
    (Char.ofNat 0x2018, [Char.ofNat 39]),
    (Char.ofNat 0x2019, [Char.ofNat 39]),
    (Char.ofNat 0x201c, str "\""),
    (Char.ofNat 0x201d, str "\""),
    (Char.ofNat 0x2026, str "..."),
    (Char.ofNat 0x00a0, str " "),
    (Char.ofNat 0x2217, str "*"),
    (Char.ofNat 0x2022, str "-"),
    (Char.ofNat 0x00b7, str "-"),
    (Char.ofNat 0x2192, str "->"),
    (Char.ofNat 0x2190, str "<-"),
    (Char.ofNat 0x2264, str "<="),
    (Char.ofNat 0x2265, str ">="),
    (Char.ofNat 0x00d7, str "x"),
    (Char.ofNat 0x00f7, str "/"),
    (Char.ofNat 0x221a, str "sqrt"),
    (Char.ofNat 0x03b1, str "alpha"),
    (Char.ofNat 0x03b2, str "beta"),
    (Char.ofNat 0x03b3, str "gamma"),
    (Char.ofNat 0x03bb, str "lambda"),
    (Char.ofNat 0x03c0, str "pi"),
    (Char.ofNat 0x03c3, str "sigma"),
    (Char.ofNat 0x03bc, str "mu") ]

/-- The substitution loop of `normalize_text` (utils.py lines 49-50). -/
def applyReplacements (s : Str) : Str :=
  replacements.foldl (fun acc kv => replaceChar kv.1 kv.2 acc) s

/-- The final ASCII re-encoding pass of `normalize_text` (utils.py
line 53, encode to ASCII with replacement and decode back): every code point at or above 128 becomes the placeholder `?`
(code point 63); nothing is ever raised. -/
def asciiReplace (s : Str) : Str :=
  s.map (fun c => if c.toNat < 128 then c else Char.ofNat 63)

/-- `normalize_text` (utils.py lines 12-55): NFKC normalization, then the
substitution table, then the ASCII re-encoding with replacement.  The NFKC
step is the external `unicodedata` call, passed in as `nfkc`. -/
def normalize_text (nfkc : Str → Str) (s : Str) : Str :=
  asciiReplace (applyReplacements (nfkc s))

/-- Outcome of `page.get_text("text")` for one page of an open document
(utils.py line 84): either the extracted text, or the exception message when
the read raises. -/
inductive PageOutcome
  | ok (text : Str)
  | fail (msg : Str)
deriving DecidableEq

/-- One uploaded file as seen by `extract_text_from_pdfs` (utils.py
lines 71-78): either `file.read()` / `fitz.open(...)` raises with a message,
or the document opens and yields a sequence of page outcomes. -/
inductive UploadedFile
  | openFail (name msg : Str)
  | doc (name : Str) (pages : List PageOutcome)
deriving DecidableEq

/-- The `file.name` attribute of an uploaded file. -/
def fname : UploadedFile → Str
  | UploadedFile.openFail name _ => name
  | UploadedFile.doc name _ => name

/-- The Python whitespace characters stripped by `str.strip()`:
space, tab, newline, carriage return, vertical tab, form feed. -/
def isPySpace (c : Char) : Bool :=
  c == ' ' || c == Char.ofNat 9 || c == Char.ofNat 10 ||
  c == Char.ofNat 13 || c == Char.ofNat 11 || c == Char.ofNat 12

/-- `text.strip()` (utils.py line 86). -/
def pyStrip (s : Str) : Str :=
  ((s.dropWhile isPySpace).reverse.dropWhile isPySpace).reverse

/-- Decimal rendering of a page number, as Python string interpolation. -/
def natToStr (n : Nat) : Str := (Nat.repr n).data

/-- The 60-character `=` separator line of the file banner. -/
def sep60 : Str := List.replicate 60 '='

/-- The per-file banner (utils.py line 80). -/
def fileBanner (name : Str) : Str :=
  str "\n" ++ sep60 ++ str "\nFILE: " ++ name ++ str "\n" ++ sep60 ++ str "\n"

/-- The per-page banner (utils.py line 87). -/
def pageBanner (n : Nat) : Str :=
  str "\n--- Page " ++ natToStr n ++ str " ---\n"

/-- The inline error marker appended when reading a file raises
(utils.py line 94). -/
def errorMarker (name msg : Str) : Str :=
  str "\n[Error reading " ++ name ++ str ": " ++ msg ++ str "]\n"

/-- The page loop of `extract_text_from_pdfs` (utils.py lines 82-88):
`n` is the 1-based page counter of `enumerate(doc, start=1)` and `acc` the
`file_text` list accumulated so far.  A raising page aborts the whole
document with the exception message. -/
def processPages (nfkc : Str → Str) : List PageOutcome → Nat → List Str → Except Str (List Str)
  | [], _, acc => Except.ok acc
  | PageOutcome.ok t :: rest, n, acc =>
      if pyStrip t = [] then processPages nfkc rest (n + 1) acc
      else processPages nfkc rest (n + 1) (acc ++ [pageBanner n, normalize_text nfkc t])
  | PageOutcome.fail m :: _, _, _ => Except.error m

/-- `"".join(file_text)` — concatenation of the accumulated fragments. -/
def joinAll : List Str → Str
  | [] => []
  | x :: rest => x ++ joinAll rest

/-- `sep.join(parts)` for a list of strings, as Python `str.join`. -/
def joinSep (sep : Str) : List Str → Str
  | [] => []
  | [x] => x
  | x :: rest => x ++ sep ++ joinSep sep rest

/-- The per-file body of `extract_text_from_pdfs` (utils.py lines 71-94):
on success the joined banner-and-pages fragment is produced; if opening the
file or reading any page raises, the whole fragment is discarded and the
inline error marker naming the file is produced instead. -/
def extractFile (nfkc : Str → Str) : UploadedFile → Str
  | UploadedFile.openFail name msg => errorMarker name msg
  | UploadedFile.doc name pages =>
      match processPages nfkc pages 1 [fileBanner name] with
      | Except.ok parts => joinAll parts
      | Except.error msg => errorMarker name msg

/-- `extract_text_from_pdfs` (utils.py lines 58-96): per-file fragments in
input order, joined by `"\n".join(all_text)`. -/
def extract_text_from_pdfs (nfkc : Str → Str) (uploaded_files : List UploadedFile) : Str :=
  joinSep (str "\n") (uploaded_files.map (extractFile nfkc))

/-- The anti-hallucination instruction preamble `STRICT_QUERY_PREFIX`
(utils.py lines 102-105). -/
def STRICT_QUERY_PREAMBLE : Str :=
  str "When answering, prefer information from the document in the context variable.\nCite specific passages when possible.\n\nUser question: "

/-- The backend keyword arguments assembled by `get_rlm` (utils.py
lines 121-129) and handed to the external `RLM(...)` constructor.
`api_key_kw`/`base_url_kw` are `none` when the corresponding key is not put
into the dictionary at all; `base_url_kw = some none` means the key is
present with Python `None`. -/
structure RLMConfig where
  backend : Str
  model_name : Str
  api_key_kw : Option Str
  base_url_kw : Option (Option Str)
deriving DecidableEq

/-- `get_rlm` (utils.py lines 108-146) up to the external `RLM(...)` call:
the dictionary of backend keyword arguments.  For the `vllm` (Ollama)
backend the api key falls back to the literal `"ollama"` when empty; for
`openai`/`gemini` the key is passed through unchecked.  The log-directory
side effect and the `RLM` construction itself are external. -/
def get_rlm (backend model_name api_key : Str) (base_url : Option Str) : RLMConfig :=
  if backend = str "vllm" then
    { backend := backend, model_name := model_name,
      api_key_kw := some (if api_key ≠ [] then api_key else str "ollama"),
      base_url_kw := some base_url }
  else if backend = str "openai" then
    { backend := backend, model_name := model_name,
      api_key_kw := some api_key, base_url_kw := none }
  else if backend = str "gemini" then
    { backend := backend, model_name := model_name,
      api_key_kw := some api_key, base_url_kw := none }
  else
    { backend := backend, model_name := model_name,
      api_key_kw := none, base_url_kw := none }

/-- The `backend_map` dictionary of app.py lines 48-53; the selectbox of
line 41 restricts the display name to exactly the three mapped values. -/
def backend_map (display : Str) : Str :=
  if display = str "OpenAI" then str "openai"
  else if display = str "Gemini" then str "gemini"
  else str "vllm"

/-- The Ollama endpoint as resolved by the sidebar text input of app.py
lines 93-97: the widget holds the fixed default URL unless the user typed
a different value. -/
def resolveOllamaBaseUrl (userInput : Option Str) : Str :=
  match userInput with
  | some u => u
  | none => str "http://localhost:11434/v1"

/-- The OpenAI api key as resolved by the sidebar of app.py lines 63-71:
an environment default, when present, is used unless overridden; otherwise
the typed value is used. -/
def resolveOpenAIKey (envKey override entered : Str) : Str :=
  if envKey ≠ [] then (if override ≠ [] then override else envKey)
  else entered

/-- Chat message roles. -/
inductive Role
  | user
  | assistant
deriving DecidableEq

/-- One chat message of `st.session_state.messages`. -/
structure Message where
  role : Role
  content : Str
deriving DecidableEq

/-- The Streamlit session state (app.py lines 27-34). -/
structure Session where
  messages : List Message
  rlm_instance : Option RLMConfig
  pdf_context : Option Str
  context_loaded : Bool
deriving DecidableEq

/-- The session state created at process start (app.py lines 27-34). -/
def initSession : Session :=
  { messages := [], rlm_instance := none, pdf_context := none, context_loaded := false }

/-- The `Load PDFs & Initialize` button handler (app.py lines 122-140).
`initFails = some m` models the external `RLM(...)` constructor raising with
message `m` inside `get_rlm`; `none` models a successful initialization.
Returns the updated session and the `st.error` message shown, if any.
Note the source stores `pdf_context` (line 130) before the `try` block
around `get_rlm` (lines 132-140). -/
def loadDocuments (nfkc : Str → Str) (s : Session) (files : List UploadedFile)
    (backend_display model_name api_key : Str) (base_url : Option Str)
    (initFails : Option Str) : Session × Option Str :=
  if files = [] then
    (s, some (str "Please upload at least one PDF file."))
  else if api_key = [] ∧ backend_display ≠ str "Ollama" then
    (s, some (str "Please enter your " ++ backend_display ++ str " API Key."))
  else
    let pdf_text := extract_text_from_pdfs nfkc files
    let s1 : Session := { s with pdf_context := some pdf_text }
    match initFails with
    | none =>
        ({ s1 with
            rlm_instance := some (get_rlm (backend_map backend_display) model_name api_key base_url),
            context_loaded := true,
            messages := [] }, none)
    | some m => (s1, some (str "Failed to initialize RLM: " ++ m))

/-- Outcome of the external `rlm.completion(...)` call (app.py lines
176-179): either an `Answer` whose `response` field may be Python `None`,
or a raised exception with message `msg`. -/
inductive EngineResult
  | ok (response : Option Str)
  | fail (msg : Str)
deriving DecidableEq

/-- The arguments of the one `rlm.completion` call a query issues:
`prompt` is the context payload (the stored corpus) and `root_prompt` the
per-query instruction (app.py lines 176-179). -/
structure EngineCall where
  prompt : Option Str
  root_prompt : Str
deriving DecidableEq

/-- The fixed fallback text used when the engine answer is Python `None`
(app.py line 183). -/
def fallbackMsg : Str :=
  str "I could not generate a response. The document may not contain relevant information for this question, or the model encountered an issue."

/-- Result of one run of the chat input handler: the updated session, the
engine call that was issued (none when the query was rejected), and the
`st.error` text shown, if any. -/
structure AskResult where
  session : Session
  engineCall : Option EngineCall
  errorShown : Option Str
deriving DecidableEq

/-- The chat input handler (app.py lines 158-193).  When the context is not
loaded the query is rejected and nothing is appended.  Otherwise the user
message is appended first, the engine is called with the corpus as context
and `STRICT_QUERY_PREFIX + prompt` as root instruction, and exactly one
assistant message is appended: the answer, the fixed fallback when the
answer is `None`, or `"Error: " + e` when the call raises. -/
def ask (s : Session) (prompt : Str) (engine : EngineResult) : AskResult :=
  if s.context_loaded then
    let s1 : Session := { s with messages := s.messages ++ [⟨Role.user, prompt⟩] }
    let call : EngineCall := ⟨s.pdf_context, STRICT_QUERY_PREAMBLE ++ prompt⟩
    match engine with
    | EngineResult.ok r =>
        let answer : Str :=
          match r with
          | none => fallbackMsg
          | some a => a
        { session := { s1 with messages := s1.messages ++ [⟨Role.assistant, answer⟩] },
          engineCall := some call, errorShown := none }
    | EngineResult.fail m =>
        let err : Str := str "Error: " ++ m
        { session := { s1 with messages := s1.messages ++ [⟨Role.assistant, err⟩] },
          engineCall := some call, errorShown := some err }
  else
    { session := s, engineCall := none,
      errorShown := some (str "Please load PDFs first using the sidebar.") }

/-- A decidable check that `p` is an initial segment of `s`. -/
def startsWithL (p s : Str) : Bool := decide (s.take p.length = p)

/-- A decidable check that `p` is a final segment of `s`. -/
def endsWithL (p s : Str) : Bool := decide (s.drop (s.length - p.length) = p)

/-- A decidable check that `sub` occurs contiguously inside `s`. -/
def isSubstr (sub : Str) : Str → Bool
  | [] => decide (sub = [])
  | c :: rest => startsWithL sub (c :: rest) || isSubstr sub rest

/-- A document page list with no raising page (document extraction
succeeds). -/
def allOk : List PageOutcome → Bool
  | [] => true
  | PageOutcome.ok _ :: rest => allOk rest
  | PageOutcome.fail _ :: _ => false

/-- A small valid document used to exercise the theorems on concrete data. -/
def exDocA : UploadedFile := UploadedFile.doc (str "a.pdf") [PageOutcome.ok (str "alpha text")]

/-- A second small valid document. -/
def exDocC : UploadedFile := UploadedFile.doc (str "c.pdf") [PageOutcome.ok (str "gamma text")]

/-- A corrupt upload whose open raises. -/
def exBad : UploadedFile := UploadedFile.openFail (str "bad.pdf") (str "oops")

/-- A session that has completed a successful load. -/
def exReady : Session :=
  { initSession with pdf_context := some (str "doc text"), context_loaded := true }

/-- A loaded session carrying prior conversation state. -/
def exSessionOld : Session :=
  { messages := [⟨Role.user, str "old question"⟩, ⟨Role.assistant, str "old answer"⟩],
    rlm_instance := some (get_rlm (str "openai") (str "gpt-x") (str "k") none),
    pdf_context := some (str "old corpus"),
    context_loaded := true }

/-! ### Helper lemmas -/

theorem take_length_append (p t : Str) : (p ++ t).take p.length = p := by
  induction p with
  | nil => rfl
  | cons c r ih => simp [List.take_succ_cons, ih]

theorem drop_length_append (p t : Str) : (p ++ t).drop p.length = t := by
  induction p with
  | nil => rfl
  | cons c r ih => simp [List.drop_succ_cons, ih]

theorem startsWithL_left (p t : Str) : startsWithL p (p ++ t) = true := by
  simp [startsWithL, take_length_append]

theorem endsWithL_right (p q : Str) : endsWithL q (p ++ q) = true := by
  simp [endsWithL, List.length_append, Nat.add_sub_cancel, drop_length_append]

theorem isSubstr_of_startsWith (sub s : Str) (h : startsWithL sub s = true) :
    isSubstr sub s = true := by
  cases s with
  | nil =>
      have hsub : sub = [] := by
        simpa [startsWithL, eq_comm] using h
      simp [isSubstr, hsub]
  | cons c r => simp [isSubstr, h]

theorem isSubstr_here (sub t : Str) : isSubstr sub (sub ++ t) = true :=
  isSubstr_of_startsWith _ _ (startsWithL_left sub t)

theorem isSubstr_append_right (sub a s : Str) (h : isSubstr sub s = true) :
    isSubstr sub (a ++ s) = true := by
  induction a with
  | nil => simpa using h
  | cons c r ih => rw [List.cons_append, isSubstr, ih, Bool.or_true]

theorem isSubstr_at (a sub b : Str) : isSubstr sub (a ++ (sub ++ b)) = true :=
  isSubstr_append_right sub a _ (isSubstr_here sub b)

theorem asciiReplace_isAscii (s : Str) : isAscii (asciiReplace s) = true := by
  induction s with
  | nil => rfl
  | cons c rest ih =>
      by_cases hc : c.toNat < 128
      · simpa [asciiReplace, isAscii, hc] using ih
      · have h63 : (Char.ofNat 63).toNat < 128 := by decide
        simpa [asciiReplace, isAscii, hc, h63] using ih

theorem asciiReplace_id (s : Str) (hs : isAscii s = true) : asciiReplace s = s := by
  induction s with
  | nil => rfl
  | cons c rest ih =>
      rw [isAscii, Bool.and_eq_true, decide_eq_true_eq] at hs
      simp only [asciiReplace, List.map_cons, if_pos hs.1]
      have hr := ih hs.2
      simp only [asciiReplace] at hr
      rw [hr]

theorem replaceChar_id (key : Char) (val s : Str) (hk : 128 ≤ key.toNat)
    (hs : isAscii s = true) : replaceChar key val s = s := by
  induction s with
  | nil => rfl
  | cons c rest ih =>
      rw [isAscii, Bool.and_eq_true, decide_eq_true_eq] at hs
      have hne : c ≠ key := by
        intro h
        rw [h] at hs
        omega
      simp [replaceChar, hne, ih hs.2]

theorem foldl_replace_id (tbl : List (Char × Str)) (s : Str)
    (hk : tbl.all (fun kv => decide (128 ≤ kv.1.toNat)) = true)
    (hs : isAscii s = true) :
    tbl.foldl (fun acc kv => replaceChar kv.1 kv.2 acc) s = s := by
  induction tbl generalizing s with
  | nil => rfl
  | cons kv rest ih =>
      rw [List.all_cons, Bool.and_eq_true, decide_eq_true_eq] at hk
      rw [List.foldl_cons, replaceChar_id kv.1 kv.2 s hk.1 hs]
      exact ih s hk.2 hs

theorem applyReplacements_id (s : Str) (hs : isAscii s = true) :
    applyReplacements s = s :=
  foldl_replace_id replacements s (by decide) hs

theorem normalize_text_isAscii (nfkc : Str → Str) (s : Str) :
    isAscii (normalize_text nfkc s) = true :=
  asciiReplace_isAscii _

theorem processPages_fail (nfkc : Str → Str) (msg : Str) (rest good : List PageOutcome)
    (hg : allOk good = true) (n : Nat) (acc : List Str) :
    processPages nfkc (good ++ PageOutcome.fail msg :: rest) n acc = Except.error msg := by
  induction good generalizing n acc with
  | nil => rfl
  | cons p r ih =>
      cases p with
      | ok t =>
          rw [List.cons_append]
          rw [allOk] at hg
          by_cases hp : pyStrip t = []
          · rw [processPages, if_pos hp]
            exact ih hg _ _
          · rw [processPages, if_neg hp]
            exact ih hg _ _
      | fail m =>
          rw [allOk] at hg
          exact absurd hg (by simp)

theorem extractFile_page_fail (nfkc : Str → Str) (name msg : Str)
    (good rest : List PageOutcome) (hg : allOk good = true) :
    extractFile nfkc (UploadedFile.doc name (good ++ PageOutcome.fail msg :: rest))
      = errorMarker name msg := by
  rw [extractFile, processPages_fail nfkc msg rest good hg 1 [fileBanner name]]

theorem isSubstr_self (sub : Str) : isSubstr sub sub = true := by
  have h := isSubstr_here sub []
  simpa using h

/-! ### C5 — idempotence of normalization -/

/-- Claim C5: `normalize_text` is idempotent — normalizing twice equals
normalizing once, for every string.  The NFKC step is the external
`unicodedata` call; the hypothesis records the Unicode property that NFKC
is the identity on ASCII text, which is all the proof needs of it. -/
theorem claim_normalize_idempotent (nfkc : Str → Str)
    (hnf : ∀ t, isAscii t = true → nfkc t = t) (s : Str) :
    normalize_text nfkc (normalize_text nfkc s) = normalize_text nfkc s := by
  have h1 : isAscii (normalize_text nfkc s) = true := asciiReplace_isAscii _
  show asciiReplace (applyReplacements (nfkc (normalize_text nfkc s)))
      = normalize_text nfkc s
  rw [hnf _ h1, applyReplacements_id _ h1, asciiReplace_id _ h1]

/-- Concrete instance of the idempotence theorem. -/
theorem claim_normalize_idempotent_witness :
    normalize_text id (normalize_text id (str "a-b c")) = normalize_text id (str "a-b c") :=
  claim_normalize_idempotent id (fun _ _ => rfl) (str "a-b c")

/-! ### C6 — ASCII guarantee of normalization -/

/-- Claim C6: `normalize_text` is total (never raises) and every character
of its output has code point strictly below 128; any character still
outside ASCII after NFKC and the substitution table is mapped to the
placeholder `?` (code point 63) rather than causing an error. -/
theorem claim_normalize_ascii (nfkc : Str → Str) (s : Str) :
    isAscii (normalize_text nfkc s) = true
    ∧ normalize_text nfkc s
        = (applyReplacements (nfkc s)).map
            (fun c => if c.toNat < 128 then c else Char.ofNat 63) :=
  ⟨asciiReplace_isAscii _, rfl⟩

/-! ### C7 — prompt composition and channel separation -/

/-- Claim C7: from a loaded session, the one engine call a query issues
carries the corpus only in its separate context argument, while its
instruction argument is exactly the fixed preamble followed by the
question — so the instruction starts with the preamble, ends with exactly
the question, and never embeds the corpus. -/
theorem claim_prompt_composition (s : Session) (q : Str) (e : EngineResult)
    (h : s.context_loaded = true) :
    (ask s q e).engineCall = some ⟨s.pdf_context, STRICT_QUERY_PREAMBLE ++ q⟩
    ∧ startsWithL STRICT_QUERY_PREAMBLE (STRICT_QUERY_PREAMBLE ++ q) = true
    ∧ endsWithL q (STRICT_QUERY_PREAMBLE ++ q) = true := by
  refine ⟨?_, startsWithL_left _ _, endsWithL_right _ _⟩
  cases e <;> simp [ask, h]

/-- Concrete instance of the prompt-composition theorem. -/
theorem claim_prompt_composition_witness :
    (ask exReady (str "What is X?") (EngineResult.ok (some (str "answer")))).engineCall
      = some ⟨exReady.pdf_context, STRICT_QUERY_PREAMBLE ++ str "What is X?"⟩
    ∧ startsWithL STRICT_QUERY_PREAMBLE (STRICT_QUERY_PREAMBLE ++ str "What is X?") = true
    ∧ endsWithL (str "What is X?") (STRICT_QUERY_PREAMBLE ++ str "What is X?") = true :=
  claim_prompt_composition exReady (str "What is X?") (EngineResult.ok (some (str "answer"))) rfl

/-! ### C3 — partial-failure isolation across a batch -/

/-- Claim C3: for a batch `[v1, corrupt, v2]` where reading `corrupt`
raises (its extraction produces only its inline error marker), the batch is
not aborted: the corpus is the three per-file fragments joined in input
order, the fragments produced from `v1` and `v2` both occur in the corpus,
and so does the error marker naming `corrupt`. -/
theorem claim_partial_failure_isolation (nfkc : Str → Str)
    (v1 v2 corrupt : UploadedFile) (msg : Str)
    (hc : extractFile nfkc corrupt = errorMarker (fname corrupt) msg) :
    extract_text_from_pdfs nfkc [v1, corrupt, v2]
      = extractFile nfkc v1 ++ (str "\n" ++ (extractFile nfkc corrupt
        ++ (str "\n" ++ extractFile nfkc v2)))
    ∧ isSubstr (extractFile nfkc v1) (extract_text_from_pdfs nfkc [v1, corrupt, v2]) = true
    ∧ isSubstr (extractFile nfkc v2) (extract_text_from_pdfs nfkc [v1, corrupt, v2]) = true
    ∧ isSubstr (errorMarker (fname corrupt) msg)
        (extract_text_from_pdfs nfkc [v1, corrupt, v2]) = true := by
  have he : extract_text_from_pdfs nfkc [v1, corrupt, v2]
      = extractFile nfkc v1 ++ (str "\n" ++ (extractFile nfkc corrupt
        ++ (str "\n" ++ extractFile nfkc v2))) := by
    simp [extract_text_from_pdfs, joinSep, List.append_assoc]
  refine ⟨he, ?_, ?_, ?_⟩
  · rw [he]
    exact isSubstr_here _ _
  · rw [he]
    exact isSubstr_append_right _ _ _ (isSubstr_append_right _ _ _
      (isSubstr_append_right _ _ _ (isSubstr_append_right _ _ _ (isSubstr_self _))))
  · rw [he, hc]
    exact isSubstr_append_right _ _ _ (isSubstr_append_right _ _ _ (isSubstr_here _ _))

/-- Concrete instance of the partial-failure isolation theorem. -/
theorem claim_partial_failure_isolation_witness :
    extract_text_from_pdfs id [exDocA, exBad, exDocC]
      = extractFile id exDocA ++ (str "\n" ++ (extractFile id exBad
        ++ (str "\n" ++ extractFile id exDocC)))
    ∧ isSubstr (extractFile id exDocA) (extract_text_from_pdfs id [exDocA, exBad, exDocC]) = true
    ∧ isSubstr (extractFile id exDocC) (extract_text_from_pdfs id [exDocA, exBad, exDocC]) = true
    ∧ isSubstr (errorMarker (fname exBad) (str "oops"))
        (extract_text_from_pdfs id [exDocA, exBad, exDocC]) = true :=
  claim_partial_failure_isolation id exDocA exDocC exBad (str "oops") rfl

/-! ### C10 — a document failing mid-read contributes only its marker -/

/-- Claim C10: when extraction of one document raises after some pages were
already read, the whole accumulated fragment (FILE banner and page text) is
discarded: the document is represented in the corpus solely by its inline
error marker, and the fragments of all other documents are unaffected. -/
theorem claim_failed_doc_keeps_marker_only (nfkc : Str → Str) (name msg : Str)
    (good rest : List PageOutcome) (fs1 fs2 : List UploadedFile)
    (hg : allOk good = true) :
    extractFile nfkc (UploadedFile.doc name (good ++ PageOutcome.fail msg :: rest))
      = errorMarker name msg
    ∧ extract_text_from_pdfs nfkc
        (fs1 ++ UploadedFile.doc name (good ++ PageOutcome.fail msg :: rest) :: fs2)
      = joinSep (str "\n")
          (fs1.map (extractFile nfkc) ++ errorMarker name msg :: fs2.map (extractFile nfkc)) := by
  refine ⟨extractFile_page_fail nfkc name msg good rest hg, ?_⟩
  rw [extract_text_from_pdfs, List.map_append, List.map_cons,
    extractFile_page_fail nfkc name msg good rest hg]

/-- Concrete instance of the mid-read failure theorem. -/
theorem claim_failed_doc_keeps_marker_only_witness :
    extractFile id (UploadedFile.doc (str "d.pdf")
        ([PageOutcome.ok (str "page one")] ++ PageOutcome.fail (str "bad xref") :: []))
      = errorMarker (str "d.pdf") (str "bad xref")
    ∧ extract_text_from_pdfs id
        ([exDocA] ++ UploadedFile.doc (str "d.pdf")
          ([PageOutcome.ok (str "page one")] ++ PageOutcome.fail (str "bad xref") :: []) :: [exDocC])
      = joinSep (str "\n")
          ([exDocA].map (extractFile id)
            ++ errorMarker (str "d.pdf") (str "bad xref") :: [exDocC].map (extractFile id)) :=
  claim_failed_doc_keeps_marker_only id (str "d.pdf") (str "bad xref")
    [PageOutcome.ok (str "page one")] [] [exDocA] [exDocC] rfl

/-! ### C1 — atomicity of the load operation -/

/-- Claim C1 counterexample: starting from the empty session, a load whose
backend initialization fails still overwrites the stored corpus before the
failure is caught — the session is not left in its prior state, and a
corpus without a config (and without the readiness flag) is published. -/
theorem claim_load_not_atomic_counterexample :
    (loadDocuments id initSession [exDocA] (str "OpenAI") (str "gpt-x")
        (str "sk-test") none (some (str "init boom"))).1.pdf_context
      ≠ initSession.pdf_context
    ∧ (loadDocuments id initSession [exDocA] (str "OpenAI") (str "gpt-x")
        (str "sk-test") none (some (str "init boom"))).1.rlm_instance = none
    ∧ (loadDocuments id initSession [exDocA] (str "OpenAI") (str "gpt-x")
        (str "sk-test") none (some (str "init boom"))).1.context_loaded = false := by
  decide

/-- Claim C1 (amended): a load rejected by input validation (no files, or a
missing API key for a non-Ollama backend) leaves the session fully
unchanged; but when extraction has run and backend initialization fails,
only the conversation history, the backend config and the readiness flag
keep their prior values — the stored corpus has already been overwritten
with the newly extracted text, so a corpus without a matching config is
published. -/
theorem claim_load_failure_state (nfkc : Str → Str) (s : Session)
    (files : List UploadedFile) (display model key : Str) (url : Option Str)
    (m : Str) (ifl : Option Str) :
    (files = [] →
      loadDocuments nfkc s files display model key url ifl
        = (s, some (str "Please upload at least one PDF file.")))
    ∧ (files ≠ [] → key = [] → display ≠ str "Ollama" →
      loadDocuments nfkc s files display model key url ifl
        = (s, some (str "Please enter your " ++ display ++ str " API Key.")))
    ∧ (files ≠ [] → ¬(key = [] ∧ display ≠ str "Ollama") →
      loadDocuments nfkc s files display model key url (some m)
        = ({ s with pdf_context := some (extract_text_from_pdfs nfkc files) },
           some (str "Failed to initialize RLM: " ++ m))) := by
  refine ⟨?_, ?_, ?_⟩
  · intro hf
    rw [loadDocuments, if_pos hf]
  · intro hf hk hd
    rw [loadDocuments, if_neg (by simpa using hf), if_pos ⟨hk, hd⟩]
  · intro hf hk
    rw [loadDocuments, if_neg (by simpa using hf), if_neg hk]

/-- Concrete instance of the amended load-failure theorem, exercising all
three failure paths from a session that already holds state. -/
theorem claim_load_failure_state_witness :
    (loadDocuments id exSessionOld [] (str "OpenAI") (str "gpt-x") (str "sk-test") none none
      = (exSessionOld, some (str "Please upload at least one PDF file.")))
    ∧ (loadDocuments id exSessionOld [exDocA] (str "OpenAI") (str "gpt-x") [] none none
      = (exSessionOld, some (str "Please enter your " ++ str "OpenAI" ++ str " API Key.")))
    ∧ (loadDocuments id exSessionOld [exDocA] (str "OpenAI") (str "gpt-x") (str "sk-test") none
        (some (str "init boom"))
      = ({ exSessionOld with pdf_context := some (extract_text_from_pdfs id [exDocA]) },
         some (str "Failed to initialize RLM: " ++ str "init boom"))) :=
  ⟨(claim_load_failure_state id exSessionOld [] (str "OpenAI") (str "gpt-x") (str "sk-test")
      none (str "init boom") none).1 rfl,
   (claim_load_failure_state id exSessionOld [exDocA] (str "OpenAI") (str "gpt-x") []
      none (str "init boom") none).2.1 (by decide) rfl (by decide),
   (claim_load_failure_state id exSessionOld [exDocA] (str "OpenAI") (str "gpt-x") (str "sk-test")
      none (str "init boom") none).2.2 (by decide) (by decide)⟩

/-! ### C2 — every query appends a full conversation turn -/

/-- Claim C2 counterexample: when the engine returns an empty (but present)
answer, the assistant message content is the empty string, not the fixed
fallback text — the code substitutes the fallback only for an absent
(`None`) answer, not for an empty one. -/
theorem claim_ask_empty_answer_counterexample :
    (ask exReady (str "q") (EngineResult.ok (some []))).session.messages
      = [⟨Role.user, str "q"⟩, ⟨Role.assistant, []⟩]
    ∧ fallbackMsg ≠ [] := by
  decide

/-- Claim C2 (amended): from a loaded session every query appends exactly
one user message followed by exactly one assistant message, and the session
stays loaded.  The assistant content is the engine answer whenever one is
present — including the empty string — the fixed non-empty fallback text
exactly when the answer is absent, and the text `Error: ` followed by the
failure text when the engine call raises; a turn is never missing from the
history. -/
theorem claim_ask_appends_turn (s : Session) (p : Str) (e : EngineResult)
    (h : s.context_loaded = true) :
    (ask s p e).session.messages
      = s.messages ++ [⟨Role.user, p⟩,
          ⟨Role.assistant,
            match e with
            | EngineResult.ok none => fallbackMsg
            | EngineResult.ok (some a) => a
            | EngineResult.fail m => str "Error: " ++ m⟩]
    ∧ (ask s p e).session.context_loaded = true
    ∧ fallbackMsg ≠ [] := by
  refine ⟨?_, ?_, by decide⟩
  · cases e with
    | ok r => cases r <;> simp [ask, h]
    | fail m => simp [ask, h]
  · cases e with
    | ok r => cases r <;> simp [ask, h]
    | fail m => simp [ask, h]

/-- Concrete instance of the amended conversation-turn theorem, on the
engine-failure path. -/
theorem claim_ask_appends_turn_witness :
    (ask exReady (str "q") (EngineResult.fail (str "boom"))).session.messages
      = exReady.messages ++ [⟨Role.user, str "q"⟩,
          ⟨Role.assistant, str "Error: " ++ str "boom"⟩]
    ∧ (ask exReady (str "q") (EngineResult.fail (str "boom"))).session.context_loaded = true
    ∧ fallbackMsg ≠ [] :=
  claim_ask_appends_turn exReady (str "q") (EngineResult.fail (str "boom")) rfl

/-! ### C4 — the session state machine -/

/-- Claim C4: a question asked before any successful load is rejected with
the session unchanged — in particular no message is appended to the
history — and every successful load resets the history to length 0 even if
the prior session held messages. -/
theorem claim_state_machine (s : Session) (p : Str) (e : EngineResult)
    (nfkc : Str → Str) (files : List UploadedFile)
    (display model key : Str) (url : Option Str) :
    (s.context_loaded = false → (ask s p e).session = s)
    ∧ (files ≠ [] → ¬(key = [] ∧ display ≠ str "Ollama") →
        (loadDocuments nfkc s files display model key url none).1.messages = []) := by
  constructor
  · intro h
    simp [ask, h]
  · intro hf hk
    rw [loadDocuments, if_neg (by simpa using hf), if_neg hk]

/-- Concrete instances of the state-machine theorem: a rejected early
question, and a reset of a non-empty history by a successful load. -/
theorem claim_state_machine_witness :
    (ask initSession (str "q") (EngineResult.ok (some (str "a")))).session = initSession
    ∧ (loadDocuments id exSessionOld [exDocA] (str "Ollama") (str "llama3") [] none none).1.messages
        = [] :=
  ⟨(claim_state_machine initSession (str "q") (EngineResult.ok (some (str "a"))) id [exDocA]
      (str "Ollama") (str "llama3") [] none).1 rfl,
   (claim_state_machine exSessionOld (str "q") (EngineResult.ok (some (str "a"))) id [exDocA]
      (str "Ollama") (str "llama3") [] none).2 (by decide) (by decide)⟩

/-! ### C8 — Ollama never fails for a missing endpoint -/

/-- Claim C8: configuring the local-model (Ollama) backend never fails for
a missing endpoint: the sidebar resolves an absent endpoint to the fixed
default URL, the load handler accepts the Ollama backend even with an empty
API key, and the backend kwargs built by `get_rlm` carry that default
endpoint. -/
theorem claim_ollama_endpoint_default (nfkc : Str → Str) (s : Session)
    (files : List UploadedFile) (model key : Str) (hf : files ≠ []) :
    resolveOllamaBaseUrl none = str "http://localhost:11434/v1"
    ∧ (loadDocuments nfkc s files (str "Ollama") model key
        (some (resolveOllamaBaseUrl none)) none).2 = none
    ∧ (loadDocuments nfkc s files (str "Ollama") model key
        (some (resolveOllamaBaseUrl none)) none).1.context_loaded = true
    ∧ (get_rlm (backend_map (str "Ollama")) model key
        (some (resolveOllamaBaseUrl none))).base_url_kw
      = some (some (str "http://localhost:11434/v1")) := by
  have hk2 : ¬(key = [] ∧ str "Ollama" ≠ str "Ollama") := fun hc => hc.2 rfl
  refine ⟨rfl, ?_, ?_, rfl⟩
  · rw [loadDocuments, if_neg (by simpa using hf), if_neg hk2]
  · rw [loadDocuments, if_neg (by simpa using hf), if_neg hk2]

/-- Concrete instance of the Ollama endpoint-defaulting theorem, with an
empty API key and no user-supplied endpoint. -/
theorem claim_ollama_endpoint_default_witness :
    resolveOllamaBaseUrl none = str "http://localhost:11434/v1"
    ∧ (loadDocuments id initSession [exDocA] (str "Ollama") (str "llama3") []
        (some (resolveOllamaBaseUrl none)) none).2 = none
    ∧ (loadDocuments id initSession [exDocA] (str "Ollama") (str "llama3") []
        (some (resolveOllamaBaseUrl none)) none).1.context_loaded = true
    ∧ (get_rlm (backend_map (str "Ollama")) (str "llama3") []
        (some (resolveOllamaBaseUrl none))).base_url_kw
      = some (some (str "http://localhost:11434/v1")) :=
  claim_ollama_endpoint_default id initSession [exDocA] (str "llama3") [] (by decide)

/-! ### C9 — OpenAI credential validation -/

/-- Claim C9: configuring OpenAI with an absent API key (and no environment
default, so the sidebar resolves the key to the empty string) is rejected
before any backend call, with an error message that names the OpenAI
backend, leaving the session unchanged; the same configuration with a key
present succeeds and stores the backend config. -/
theorem claim_openai_key_validation (nfkc : Str → Str) (s : Session)
    (files : List UploadedFile) (model key : Str)
    (hf : files ≠ []) (hk : key ≠ []) :
    (resolveOpenAIKey [] [] [] = []
      ∧ loadDocuments nfkc s files (str "OpenAI") model [] none none
          = (s, some (str "Please enter your OpenAI API Key."))
      ∧ isSubstr (str "OpenAI") (str "Please enter your OpenAI API Key.") = true)
    ∧ ((loadDocuments nfkc s files (str "OpenAI") model key none none).1.context_loaded = true
      ∧ (loadDocuments nfkc s files (str "OpenAI") model key none none).1.rlm_instance
          = some (get_rlm (str "openai") model key none)
      ∧ (loadDocuments nfkc s files (str "OpenAI") model key none none).2 = none) := by
  have hk2 : ¬(key = [] ∧ str "OpenAI" ≠ str "Ollama") := fun hc => hk hc.1
  have hmsg : str "Please enter your " ++ str "OpenAI" ++ str " API Key."
      = str "Please enter your OpenAI API Key." := by decide
  refine ⟨⟨rfl, ?_, by decide⟩, ?_⟩
  · rw [loadDocuments, if_neg (by simpa using hf), if_pos ⟨rfl, by decide⟩, hmsg]
  · rw [loadDocuments, if_neg (by simpa using hf), if_neg hk2]
    exact ⟨rfl, rfl, rfl⟩

/-- Concrete instance of the OpenAI credential-validation theorem. -/
theorem claim_openai_key_validation_witness :
    (resolveOpenAIKey [] [] [] = []
      ∧ loadDocuments id initSession [exDocA] (str "OpenAI") (str "gpt-x") [] none none
          = (initSession, some (str "Please enter your OpenAI API Key."))
      ∧ isSubstr (str "OpenAI") (str "Please enter your OpenAI API Key.") = true)
    ∧ ((loadDocuments id initSession [exDocA] (str "OpenAI") (str "gpt-x") (str "sk-abc")
          none none).1.context_loaded = true
      ∧ (loadDocuments id initSession [exDocA] (str "OpenAI") (str "gpt-x") (str "sk-abc")
          none none).1.rlm_instance
          = some (get_rlm (str "openai") (str "gpt-x") (str "sk-abc") none)
      ∧ (loadDocuments id initSession [exDocA] (str "OpenAI") (str "gpt-x") (str "sk-abc")
          none none).2 = none) :=
  claim_openai_key_validation id initSession [exDocA] (str "gpt-x") (str "sk-abc")
    (by decide) (by decide)
